import Mathlib

/-!
Verification of the muscle-joint-serialization rigging library.

This file gives a shallow embedding, over the real numbers, of the geometric
and state-machine core of the repository:

  * `createAimTransformation`  (src/aim.py) — the look-at basis solver;
  * the twist-chain spacing and orient-blend weights (src/rollBone.py);
  * the driven-keyframe authoring `_addSDK`, the `MuscleJointGroup`
    edit/finalize state machine, its factories and `mirror`
    (src/muscle_bone.py);
  * the average/push joint generator's remap and side-negation wiring
    (src/avg_push_joint.py).

Maya's `MVector`/`MMatrix` become an explicit `Vec3` / row-major `Mat3`
(vectors multiply on the left, `v * M`, as in the Maya API); the scene is
modelled by the fields of `MuscleState`, with scene deletions of tracked
nodes mapped to `Except`-valued primitives that fail exactly when the node
no longer exists.
-/

noncomputable section

/-- A 3D vector (Maya `MVector` / the positional part of `MPoint`). -/
@[ext] structure Vec3 where
  x : ℝ
  y : ℝ
  z : ℝ

namespace Vec3

/-- The zero vector. -/
def zero : Vec3 := ⟨0, 0, 0⟩

/-- Componentwise addition. -/
def add (a b : Vec3) : Vec3 := ⟨a.x + b.x, a.y + b.y, a.z + b.z⟩

/-- Componentwise subtraction (`targetPoint - aimPoint` in aim.py). -/
def sub (a b : Vec3) : Vec3 := ⟨a.x - b.x, a.y - b.y, a.z - b.z⟩

/-- Scalar multiplication. -/
def smul (k : ℝ) (a : Vec3) : Vec3 := ⟨k * a.x, k * a.y, k * a.z⟩

/-- Dot product (Maya `*` on two `MVector`s). -/
def dot (a b : Vec3) : ℝ := a.x * b.x + a.y * b.y + a.z * b.z

/-- Cross product (Maya `^` on two `MVector`s). -/
def cross (a b : Vec3) : Vec3 :=
  ⟨a.y * b.z - a.z * b.y, a.z * b.x - a.x * b.z, a.x * b.y - a.y * b.x⟩

/-- Euclidean length (Maya `MVector.length`). -/
def vlength (a : Vec3) : ℝ := Real.sqrt (dot a a)

/-- Normalization (Maya `MVector.normal`): the vector scaled by the
reciprocal of its length.  On the zero vector Lean's `1 / 0 = 0` makes the
result the zero vector; the non-degenerate claims never hit that case. -/
def normal (a : Vec3) : Vec3 := smul (1 / vlength a) a

/-- Negate the x coordinate, keeping y and z (`MuscleJointGroup.mirror`). -/
def mirrorX (a : Vec3) : Vec3 := ⟨-a.x, a.y, a.z⟩

end Vec3

/-- A 3×3 row-major matrix: the rotation block of a Maya `MMatrix`.  Row
vectors multiply on the left, matching the Maya convention `v * M`. -/
@[ext] structure Mat3 where
  r0 : Vec3
  r1 : Vec3
  r2 : Vec3

namespace Mat3

/-- Row vector times matrix: `(v * M)_j = Σ_i v_i * M_{i,j}`. -/
def rowMul (v : Vec3) (m : Mat3) : Vec3 :=
  ⟨v.x * m.r0.x + v.y * m.r1.x + v.z * m.r2.x,
   v.x * m.r0.y + v.y * m.r1.y + v.z * m.r2.y,
   v.x * m.r0.z + v.y * m.r1.z + v.z * m.r2.z⟩

/-- Matrix product: row i of `mul a b` is row i of `a` times `b`. -/
def mul (a b : Mat3) : Mat3 :=
  ⟨rowMul a.r0 b, rowMul a.r1 b, rowMul a.r2 b⟩

/-- Determinant by cofactor expansion along the first row. -/
def det (m : Mat3) : ℝ :=
  m.r0.x * (m.r1.y * m.r2.z - m.r1.z * m.r2.y)
  - m.r0.y * (m.r1.x * m.r2.z - m.r1.z * m.r2.x)
  + m.r0.z * (m.r1.x * m.r2.y - m.r1.y * m.r2.x)

/-- Matrix inverse by the adjugate formula, entry (i,j) being the (j,i)
cofactor over the determinant (Maya `MMatrix.inverse` restricted to the
rotation block). -/
def inverse (m : Mat3) : Mat3 :=
  ⟨⟨(m.r1.y * m.r2.z - m.r1.z * m.r2.y) / det m,
    -(m.r0.y * m.r2.z - m.r0.z * m.r2.y) / det m,
    (m.r0.y * m.r1.z - m.r0.z * m.r1.y) / det m⟩,
   ⟨-(m.r1.x * m.r2.z - m.r1.z * m.r2.x) / det m,
    (m.r0.x * m.r2.z - m.r0.z * m.r2.x) / det m,
    -(m.r0.x * m.r1.z - m.r0.z * m.r1.x) / det m⟩,
   ⟨(m.r1.x * m.r2.y - m.r1.y * m.r2.x) / det m,
    -(m.r0.x * m.r2.y - m.r0.y * m.r2.x) / det m,
    (m.r0.x * m.r1.y - m.r0.y * m.r1.x) / det m⟩⟩

end Mat3

/-- Maya `om.MVector.kZaxisVector`, the default `aimVector` of
`createAimTransformation`. -/
def kZaxisVector : Vec3 := ⟨0, 0, 1⟩

/-- Maya `om.MVector.kXaxisVector`, the default `upVector` of
`createAimTransformation`. -/
def kXaxisVector : Vec3 := ⟨1, 0, 0⟩

/-- `createAimTransformation` from src/aim.py: builds the world basis
`UVWMatrix` from the normalized aim direction `u = normal (target - aim)`,
the re-orthogonalized up `v = w × u` and the side `w = normal (u × v_raw)`,
the local axis matrix `TBNMatrix` from `(aimVector, upVector,
aimVector × upVector)`, and returns the rotation
`TBN⁻¹ * UVW` together with the translation, which the source sets to
`aimPoint` via `setTranslation`. -/
def createAimTransformation (aimPoint targetPoint upPoint aimVector upVector : Vec3) :
    Mat3 × Vec3 :=
  let uVector := Vec3.normal (Vec3.sub targetPoint aimPoint)
  let vVector := Vec3.normal (Vec3.sub upPoint aimPoint)
  let wVector := Vec3.normal (Vec3.cross uVector vVector)
  let vOrtho := Vec3.cross wVector uVector
  let UVWMatrix : Mat3 := ⟨uVector, vOrtho, wVector⟩
  let TBNMatrix : Mat3 := ⟨aimVector, upVector, Vec3.cross aimVector upVector⟩
  (Mat3.mul (Mat3.inverse TBNMatrix) UVWMatrix, aimPoint)

/-! ## Twist distribution engine (src/rollBone.py) -/

/-- The orientation source wiring an orient constraint gives a twist joint:
either a single-target constraint on the live value joint with weight 1, or
a two-target blend `(offset-joint weight, value-joint weight)`. -/
inductive OrientSpec where
  | full : OrientSpec
  | blend (offsetW valueW : ℝ) : OrientSpec

/-- The weight an `OrientSpec` puts on the live value joint. -/
def valueWeight : OrientSpec → ℝ
  | OrientSpec.full => 1
  | OrientSpec.blend _ w => w

/-- Orient-constraint weights `setupTwistJointChain` authors for twist joint
`i` of a chain of `count` joints: the last joint is constrained to the value
joint alone; each earlier joint `i` blends the offset joint with weight
`1 - weightUnit * (i+1)` and the value joint with `weightUnit * (i+1)`,
`weightUnit = 1.0 / count`. -/
def twistChainBlend (count i : ℕ) : OrientSpec :=
  if i = count - 1 then OrientSpec.full
  else OrientSpec.blend (1 - 1 / (count : ℝ) * ((i : ℝ) + 1)) (1 / (count : ℝ) * ((i : ℝ) + 1))

/-- Orient-constraint weights `setupCounterTwistJointChain` authors: joint 0
gets the fixed 0.9/0.1 blend; joint `i ≥ 1` blends the offset joint with
`1 - weightUnit * i` and the value joint with `weightUnit * i`. -/
def counterChainBlend (count i : ℕ) : OrientSpec :=
  if i = 0 then OrientSpec.blend 0.9 0.1
  else OrientSpec.blend (1 - 1 / (count : ℝ) * (i : ℝ)) (1 / (count : ℝ) * (i : ℝ))

/-- Local translation `setupTwistJointChain` gives twist joint `i`:
`distributionDistance * twistAxis * (i+1)` with
`distributionDistance = (chainLength * (1 - 0.02)) / count`. -/
def twistJointTranslation (chainLength : ℝ) (count : ℕ) (twistAxis : Vec3) (i : ℕ) : Vec3 :=
  Vec3.smul (chainLength * (1 - 0.02) / (count : ℝ) * ((i : ℝ) + 1)) twistAxis

/-- Local translation `setupCounterTwistJointChain` gives twist joint `i`:
`distributionDistance * twistAxis * i + offset * twistAxis` with
`offset = chainLength * 0.02` and
`distributionDistance = (chainLength - offset) / count`. -/
def counterTwistJointTranslation (chainLength : ℝ) (count : ℕ) (twistAxis : Vec3) (i : ℕ) :
    Vec3 :=
  Vec3.add
    (Vec3.smul ((chainLength - chainLength * 0.02) / (count : ℝ) * (i : ℝ)) twistAxis)
    (Vec3.smul (chainLength * 0.02) twistAxis)

/-! ## Average/push joint generator (src/avg_push_joint.py) -/

/-- Maya `remapValue` node with the default linear ramp: map `x` from
`[inMin, inMax]` to `[outMin, outMax]`, clamping outside the input range. -/
def remapValue (inMin inMax outMin outMax x : ℝ) : ℝ :=
  outMin + (outMax - outMin) * min (max ((x - inMin) / (inMax - inMin)) 0) 1

/-- Whether `pat` is a leading run of `s` (character-list form of Python
`str.startswith`). -/
def charListHasPre : List Char → List Char → Bool
  | [], _ => true
  | _ :: _, [] => false
  | a :: as, b :: bs => a == b && charListHasPre as bs

/-- Whether `pat` occurs contiguously inside `s` (character-list form of
Python `in` on strings). -/
def charListHasSub (pat : List Char) : List Char → Bool
  | [] => charListHasPre pat []
  | c :: rest => charListHasPre pat (c :: rest) || charListHasSub pat rest

/-- The side-detection heuristic of src/avg_push_joint.py:
`'Right' in shortName or shortName.startswith('JORight')`. -/
def isRightSide (shortName : String) : Bool :=
  charListHasSub (String.toList "Right") (String.toList shortName)
    || charListHasPre (String.toList "JORight") (String.toList shortName)

/-- The push-joint translation along the distance axis produced by
`createAvgPushJointForFinger`: the avg joint's rotation is
`weight * rotation` (a `multDoubleLinear`), fed to a `remapValue` with the
given range, and for right-side joints an extra `multDoubleLinear` by `-1`
is inserted before `push.translate`; left-side joints connect directly. -/
def pushTranslation (shortName : String) (weight inMin inMax outMin outMax rotation : ℝ) :
    ℝ :=
  let avgRotation := weight * rotation
  let remapped := remapValue inMin inMax outMin outMax avgRotation
  if isRightSide shortName then (-1) * remapped else remapped

/-- The push-joint `translateZ` produced by `setup_elbow_avg_push`: avg
rotation is half the elbow rotation, remapped from `[-90, 0]` to
`[remapOutputMin, 0]`, then multiplied by `-1` for right-side joints and by
`1` otherwise. -/
def elbowPushTranslation (shortName : String) (remapOutputMin rotation : ℝ) : ℝ :=
  let remapped := remapValue (-90) 0 remapOutputMin 0 (0.5 * rotation)
  (if isRightSide shortName then (-1 : ℝ) else 1) * remapped

/-! ## MuscleJointGroup (src/muscle_bone.py) -/

/-- One of the three local axes `'XYZ'` iterated by `_addSDK`. -/
inductive Axis where
  | X : Axis
  | Y : Axis
  | Z : Axis
  deriving DecidableEq

/-- One driven-keyframe sample on a (scale, translate) channel pair of the
output joint: the driver value (`muscleTip.translateY`) and the keyed scale
and translate values at that driver value. -/
structure SDKSample where
  driver : ℝ
  scale : ℝ
  translate : ℝ

/-- The three driven-keyframe samples `_addSDK` authors per axis. -/
structure AxisSDK where
  rest : SDKSample
  stretch : SDKSample
  compression : SDKSample

/-- Component of an optional per-axis offset triple: `None` stands for the
default `[0.0, 0.0, 0.0]` list in `_addSDK`. -/
def offsetComp (o : Option Vec3) : Axis → ℝ
  | Axis.X => (o.getD Vec3.zero).x
  | Axis.Y => (o.getD Vec3.zero).y
  | Axis.Z => (o.getD Vec3.zero).z

/-- `MuscleJointGroup._addSDK`: with `xzStretchScale = sqrt(1/stretchFactor)`
and `xzSquashScale = sqrt(1/compressionFactor)`, key every axis to scale 1 /
translate 0 at the rest driver value; at driver `restLength * stretchFactor`
key the Y scale to `stretchFactor` and the X/Z scales to `xzStretchScale`
with translate `stretchOffset[axis]`; at driver
`restLength * compressionFactor` key the Y scale to `compressionFactor` and
the X/Z scales to `xzSquashScale` with translate `compressionOffset[axis]`. -/
def addSDK (compressionFactor stretchFactor : ℝ)
    (stretchOffset compressionOffset : Option Vec3) (restLength : ℝ) (axis : Axis) :
    AxisSDK :=
  let xzSquashScale := Real.sqrt (1 / compressionFactor)
  let xzStretchScale := Real.sqrt (1 / stretchFactor)
  { rest := ⟨restLength, 1, 0⟩
    stretch :=
      ⟨restLength * stretchFactor,
       (match axis with | Axis.Y => stretchFactor | _ => xzStretchScale),
       (match axis with | Axis.Y => 0 | _ => offsetComp stretchOffset axis)⟩
    compression :=
      ⟨restLength * compressionFactor,
       (match axis with | Axis.Y => compressionFactor | _ => xzSquashScale),
       (match axis with | Axis.Y => 0 | _ => offsetComp compressionOffset axis)⟩ }

/-- The constructor parameters of `MuscleJointGroup.__init__`, stored in
declaration order: `(muscleName, muscleLength, compressionFactor,
stretchFactor, stretchOffset, compressionOffset)`. -/
structure MuscleParams where
  muscleName : String
  muscleLength : ℝ
  compressionFactor : ℝ
  stretchFactor : ℝ
  stretchOffset : Option Vec3
  compressionOffset : Option Vec3

/-- `MuscleJointGroup.__init__` up to its stored tunables: a positional
call, assigning the fifth argument to `self.stretchOffset` and the sixth to
`self.compressionOffset`. -/
def muscleInit (muscleName : String) (muscleLength compressionFactor stretchFactor : ℝ)
    (stretchOffsetArg compressionOffsetArg : Option Vec3) : MuscleParams :=
  ⟨muscleName, muscleLength, compressionFactor, stretchFactor,
   stretchOffsetArg, compressionOffsetArg⟩

/-- `MuscleJointGroup.createFromAttachObjs`, reduced to the parameters of
the group it constructs: `muscleLength` is the distance between the two
attach positions, and the constructor is called positionally as
`cls(muscleName, muscleLength, compressionFactor, stretchFactor,
compressionOffset, stretchOffset)` — the two offset arguments in that
order. -/
def createFromAttachObjs (muscleName : String) (originAttachPos insertionAttachPos : Vec3)
    (compressionFactor stretchFactor : ℝ)
    (stretchOffset compressionOffset : Option Vec3) : MuscleParams :=
  muscleInit muscleName (Vec3.vlength (Vec3.sub insertionAttachPos originAttachPos))
    compressionFactor stretchFactor compressionOffset stretchOffset

/-- `removeBpPrefix` inside `createFromBlueprint`:
`name.split("_")[0].removeprefix("bp")`. -/
def removeBpPre (name : String) : String :=
  let first := (name.splitOn "_").headD ""
  if first.startsWith "bp" then first.drop 2 else first

/-- `MuscleJointGroup.createFromBlueprint`, reduced to the parameters of the
group it constructs: the name is derived from the blueprint origin node,
`muscleLength` is the blueprint-position distance, and the constructor is
called positionally as `cls(muscleName, muscleLength, compressionFactor,
stretchFactor, compressionOffset, stretchOffset)`. -/
def createFromBlueprint (bpOrigin : String) (originPos insertionPos : Vec3)
    (compressionFactor stretchFactor : ℝ)
    (stretchOffset compressionOffset : Option Vec3) : MuscleParams :=
  muscleInit (removeBpPre bpOrigin) (Vec3.vlength (Vec3.sub insertionPos originPos))
    compressionFactor stretchFactor compressionOffset stretchOffset

/-- The scene-level state of one `MuscleJointGroup`.  Positions are world
positions of the three user-relevant transforms; `originOrient` is the
orientation the temporary aim solve leaves on `muscleOrigin`; `sdk` is the
driven-keyframe data currently authored on the output joint.  The four
booleans record which tracked scene objects currently exist: the three
edit-mode locators, the edit-mode point-constraint bindings
(`ptConstraintsEdits`), `mainAimConstraint` and `mainPointConstraint`.
`muscleTip.translateY` is not stored: the tip is point-constrained to the
insertion throughout, so it always reads the origin–insertion distance. -/
structure MuscleState where
  params : MuscleParams
  originPos : Vec3
  insertionPos : Vec3
  driverPos : Vec3
  originOrient : Mat3
  sdk : Axis → AxisSDK
  hasLocators : Bool
  hasEditConstraints : Bool
  hasMainAim : Bool
  hasMainPoint : Bool

/-- `mc.delete(node)` on a tracked node: fails when the node no longer
exists, as Maya's unguarded delete does. -/
def deleteNode (present : Bool) : Except Unit Unit :=
  if present then Except.ok () else Except.error ()

/-- The live `muscleTip.translateY`: the tip point-follows the insertion and
the base sits on the origin aimed at the insertion along +Y, so the tip's
local Y translation is the origin–insertion distance. -/
def tipTy (originPos insertionPos : Vec3) : ℝ :=
  Vec3.vlength (Vec3.sub insertionPos originPos)

/-- The orientation a Y-aim constraint with scene-up reference leaves on a
joint at `fromPos` looking at `toPos` (used by `create` and `update` on
`muscleOrigin`): the aim solver with local aim axis +Y and local up axis +X,
up-referenced to the world up point one unit above the joint. -/
def sceneAimY (fromPos toPos : Vec3) : Mat3 :=
  (createAimTransformation fromPos toPos (Vec3.add fromPos ⟨0, 1, 0⟩)
    ⟨0, 1, 0⟩ ⟨1, 0, 0⟩).1

/-- `MuscleJointGroup.create`: origin at the world origin, insertion at
`translateX = muscleLength`, a discarded aim solve orienting the origin, the
base/tip/driver chain (driver point-blended halfway between base and tip),
and a first `_addSDK` pass at the current tip distance.  Both
`mainAimConstraint` and `mainPointConstraint` exist afterwards; no edit-mode
objects do. -/
def createState (p : MuscleParams) : MuscleState :=
  { params := p
    originPos := ⟨0, 0, 0⟩
    insertionPos := ⟨p.muscleLength, 0, 0⟩
    driverPos := ⟨p.muscleLength / 2, 0, 0⟩
    originOrient := sceneAimY ⟨0, 0, 0⟩ ⟨p.muscleLength, 0, 0⟩
    sdk := fun axis =>
      addSDK p.compressionFactor p.stretchFactor p.stretchOffset p.compressionOffset
        (tipTy ⟨0, 0, 0⟩ ⟨p.muscleLength, 0, 0⟩) axis
    hasLocators := false
    hasEditConstraints := false
    hasMainAim := true
    hasMainPoint := true }

/-- `MuscleJointGroup.edit`: spawns the three locators at the current joint
positions, binds origin/insertion/driver to them (recorded in
`ptConstraintsEdits`), and deletes `mainPointConstraint` with an unguarded
`mc.delete` — the one step that fails if it is already gone.  Locator
creation matches current transforms, so no position changes. -/
def editOp (s : MuscleState) : Except Unit MuscleState :=
  match deleteNode s.hasMainPoint with
  | Except.error e => Except.error e
  | Except.ok _ =>
      Except.ok { s with hasLocators := true, hasEditConstraints := true, hasMainPoint := false }

/-- The state `MuscleJointGroup.update` produces when it succeeds: edit-mode
bindings and locators gone, `mainPointConstraint` rebuilt with
`maintainOffset=True` (the driver keeps its position), the aim solve redone
from the current origin/insertion geometry, `mainAimConstraint` rebuilt, and
the driven keys regenerated by `_addSDK` at the current tip distance. -/
def updateResult (s : MuscleState) : MuscleState :=
  { s with
    hasLocators := false
    hasEditConstraints := false
    hasMainAim := true
    hasMainPoint := true
    originOrient := sceneAimY s.originPos s.insertionPos
    sdk := fun axis =>
      addSDK s.params.compressionFactor s.params.stretchFactor s.params.stretchOffset
        s.params.compressionOffset (tipTy s.originPos s.insertionPos) axis }

/-- `MuscleJointGroup.update`: the deletions of `ptConstraintsEdits` entries
and of the locators are guarded by `mc.objExists` and never fail; the
unguarded `mc.delete(self.mainAimConstraint)` fails when that constraint is
gone.  On success the state is `updateResult`. -/
def updateOp (s : MuscleState) : Except Unit MuscleState :=
  match deleteNode s.hasMainAim with
  | Except.error e => Except.error e
  | Except.ok _ => Except.ok (updateResult s)

/-- `MuscleJointGroup.__init__`: `create()` followed by `edit()`. -/
def constructOp (p : MuscleParams) : Except Unit MuscleState :=
  editOp (createState p)

/-- `MuscleJointGroup.mirror`: reads the current world positions of
`muscleOrigin` / `muscleInsertion` / `muscleDriver`, constructs a brand-new
group with `muscleLength` the current origin–insertion distance and this
instance's factors and offsets passed in declaration order, then moves the
new group's three edit-mode locators (and through their bindings the new
group's joints) to the x-negated positions. -/
def mirrorOp (newMuscleName : String) (s : MuscleState) : Except Unit MuscleState :=
  match constructOp
      (muscleInit newMuscleName (Vec3.vlength (Vec3.sub s.insertionPos s.originPos))
        s.params.compressionFactor s.params.stretchFactor
        s.params.stretchOffset s.params.compressionOffset) with
  | Except.error e => Except.error e
  | Except.ok g =>
      Except.ok { g with
        originPos := Vec3.mirrorX s.originPos
        insertionPos := Vec3.mirrorX s.insertionPos
        driverPos := Vec3.mirrorX s.driverPos }

/-- The states a `MuscleJointGroup` can be in: freshly constructed, or the
successful result of `edit()` / `update()` / `mirror` on a reachable state,
or a reachable edit-mode state whose locators the user has dragged. -/
inductive Reachable : MuscleState → Prop where
  | construct (p : MuscleParams) (s : MuscleState) :
      constructOp p = Except.ok s → Reachable s
  | edit (s s' : MuscleState) :
      Reachable s → editOp s = Except.ok s' → Reachable s'
  | update (s s' : MuscleState) :
      Reachable s → updateOp s = Except.ok s' → Reachable s'
  | move (s : MuscleState) (o i c : Vec3) :
      Reachable s → s.hasLocators = true →
      Reachable { s with originPos := o, insertionPos := i, driverPos := c }
  | mirror (s m : MuscleState) (n : String) :
      Reachable s → mirrorOp n s = Except.ok m → Reachable m

/-- Concrete parameters used by the witnesses. -/
def demoParams : MuscleParams :=
  ⟨ "Demo", 5, 0.5, 1.5, none, none ⟩

/-- The state of a freshly constructed demo group (Edit mode). -/
def demoEditState : MuscleState :=
  { createState demoParams with
    hasLocators := true
    hasEditConstraints := true
    hasMainPoint := false }

/-- A demo source state for `mirror`: origin at `(1,0,0)`, insertion five
units away at `(1,3,4)`, driver between them, edit-unrelated fields
arbitrary but concrete. -/
def demoMirrorSrc : MuscleState :=
  { params := ⟨ "LeftDemo", 5, 0.5, 1.5, some ⟨0.1, 0, 0⟩, some ⟨0.2, 0, 0⟩ ⟩
    originPos := ⟨1, 0, 0⟩
    insertionPos := ⟨1, 3, 4⟩
    driverPos := ⟨1, 1.5, 2⟩
    originOrient := ⟨⟨1, 0, 0⟩, ⟨0, 1, 0⟩, ⟨0, 0, 1⟩⟩
    sdk := fun axis => addSDK 0.5 1.5 none none 5 axis
    hasLocators := true
    hasEditConstraints := true
    hasMainAim := true
    hasMainPoint := false }

/-! ## Vector and matrix lemmas -/

theorem vec_dot_self_nonneg (v : Vec3) : 0 ≤ Vec3.dot v v := by
  unfold Vec3.dot
  nlinarith [mul_self_nonneg v.x, mul_self_nonneg v.y, mul_self_nonneg v.z]

theorem vec_dot_self_eq_zero (v : Vec3) : Vec3.dot v v = 0 ↔ v = Vec3.zero := by
  constructor
  · intro h
    obtain ⟨a, b, c⟩ := v
    unfold Vec3.dot at h
    have ha : a = 0 := by nlinarith [mul_self_nonneg a, mul_self_nonneg b, mul_self_nonneg c]
    have hb : b = 0 := by nlinarith [mul_self_nonneg a, mul_self_nonneg b, mul_self_nonneg c]
    have hc : c = 0 := by nlinarith [mul_self_nonneg a, mul_self_nonneg b, mul_self_nonneg c]
    simp [Vec3.zero, ha, hb, hc]
  · intro h
    subst h
    simp [Vec3.dot, Vec3.zero]

theorem vec_dot_comm (a b : Vec3) : Vec3.dot a b = Vec3.dot b a := by
  unfold Vec3.dot
  ring

theorem vec_dot_smul_left (k : ℝ) (a b : Vec3) :
    Vec3.dot (Vec3.smul k a) b = k * Vec3.dot a b := by
  unfold Vec3.dot Vec3.smul
  ring

theorem vec_dot_cross_left (a b : Vec3) : Vec3.dot (Vec3.cross a b) a = 0 := by
  unfold Vec3.dot Vec3.cross
  ring

theorem vec_dot_cross_right (a b : Vec3) : Vec3.dot (Vec3.cross a b) b = 0 := by
  unfold Vec3.dot Vec3.cross
  ring

theorem vec_cross_lagrange (a b : Vec3) :
    Vec3.dot (Vec3.cross a b) (Vec3.cross a b)
      = Vec3.dot a a * Vec3.dot b b - Vec3.dot a b ^ 2 := by
  unfold Vec3.dot Vec3.cross
  ring

theorem vec_normal_dot_self (v : Vec3) (h : v ≠ Vec3.zero) :
    Vec3.dot (Vec3.normal v) (Vec3.normal v) = 1 := by
  have hd0 : Vec3.dot v v ≠ 0 := fun hc => h ((vec_dot_self_eq_zero v).mp hc)
  have hdpos : 0 < Vec3.dot v v := lt_of_le_of_ne (vec_dot_self_nonneg v) (Ne.symm hd0)
  have key : Vec3.dot (Vec3.smul (1 / Vec3.vlength v) v) (Vec3.smul (1 / Vec3.vlength v) v)
      = (1 / Vec3.vlength v) ^ 2 * Vec3.dot v v := by
    unfold Vec3.dot Vec3.smul
    ring
  rw [Vec3.normal, key, Vec3.vlength, div_pow, one_pow, Real.sq_sqrt hdpos.le,
    one_div_mul_cancel hd0]

theorem vec_vlength_eq_one (v : Vec3) (h : Vec3.dot v v = 1) : Vec3.vlength v = 1 := by
  rw [Vec3.vlength, h, Real.sqrt_one]

theorem mat_mul_tbnDefaultInv (B : Mat3) :
    Mat3.mul
      (Mat3.inverse ⟨kZaxisVector, kXaxisVector, Vec3.cross kZaxisVector kXaxisVector⟩) B
      = ⟨B.r1, B.r2, B.r0⟩ := by
  obtain ⟨⟨a0, a1, a2⟩, ⟨b0, b1, b2⟩, ⟨c0, c1, c2⟩⟩ := B
  simp only [Mat3.mul, Mat3.rowMul, Mat3.inverse, Mat3.det, kZaxisVector, kXaxisVector,
    Vec3.cross, Mat3.mk.injEq, Vec3.mk.injEq]
  norm_num

theorem aim_default_rot (a t u : Vec3) :
    (createAimTransformation a t u kZaxisVector kXaxisVector).1 =
      ⟨Vec3.cross
          (Vec3.normal (Vec3.cross (Vec3.normal (Vec3.sub t a)) (Vec3.normal (Vec3.sub u a))))
          (Vec3.normal (Vec3.sub t a)),
        Vec3.normal (Vec3.cross (Vec3.normal (Vec3.sub t a)) (Vec3.normal (Vec3.sub u a))),
        Vec3.normal (Vec3.sub t a)⟩ := by
  exact mat_mul_tbnDefaultInv _

/-- C1: for every non-degenerate triple (aimPoint, targetPoint, upPoint) and
the default axes, the rotation returned by `createAimTransformation` maps
the local aim axis (+Z, as a Maya row vector) onto
`normalize(targetPoint - aimPoint)`, and the returned transform's
translation equals `aimPoint`. -/
theorem aim_maps_forward_axis (a t u : Vec3)
    (hT : Vec3.sub t a ≠ Vec3.zero)
    (hW : Vec3.cross (Vec3.normal (Vec3.sub t a)) (Vec3.normal (Vec3.sub u a)) ≠ Vec3.zero) :
    Mat3.rowMul kZaxisVector (createAimTransformation a t u kZaxisVector kXaxisVector).1
      = Vec3.normal (Vec3.sub t a) ∧
    (createAimTransformation a t u kZaxisVector kXaxisVector).2 = a := by
  refine ⟨?_, rfl⟩
  rw [aim_default_rot]
  ext <;> simp [Mat3.rowMul, kZaxisVector] <;> ring

theorem demo_sub_y : Vec3.sub ⟨0, 1, 0⟩ ⟨0, 0, 0⟩ = (⟨0, 1, 0⟩ : Vec3) := by
  unfold Vec3.sub
  norm_num

theorem demo_sub_x : Vec3.sub ⟨1, 0, 0⟩ ⟨0, 0, 0⟩ = (⟨1, 0, 0⟩ : Vec3) := by
  unfold Vec3.sub
  norm_num

theorem demo_normal_y : Vec3.normal ⟨0, 1, 0⟩ = (⟨0, 1, 0⟩ : Vec3) := by
  unfold Vec3.normal Vec3.vlength Vec3.dot Vec3.smul
  norm_num

theorem demo_normal_x : Vec3.normal ⟨1, 0, 0⟩ = (⟨1, 0, 0⟩ : Vec3) := by
  unfold Vec3.normal Vec3.vlength Vec3.dot Vec3.smul
  norm_num

theorem demo_aim_hT : Vec3.sub ⟨0, 1, 0⟩ ⟨0, 0, 0⟩ ≠ Vec3.zero := by
  intro h
  have hy := congrArg Vec3.y h
  simp [Vec3.sub, Vec3.zero] at hy

theorem demo_aim_hW :
    Vec3.cross (Vec3.normal (Vec3.sub ⟨0, 1, 0⟩ ⟨0, 0, 0⟩))
      (Vec3.normal (Vec3.sub ⟨1, 0, 0⟩ ⟨0, 0, 0⟩)) ≠ Vec3.zero := by
  rw [demo_sub_y, demo_sub_x, demo_normal_y, demo_normal_x]
  intro h
  have hz := congrArg Vec3.z h
  simp [Vec3.cross, Vec3.zero] at hz

/-- Witness for C1: the spec's simple-aim scenario aimPoint=(0,0,0),
targetPoint=(0,1,0), upPoint=(1,0,0) — translation is (0,0,0) and the
transformed forward direction is (0,1,0). -/
theorem aim_maps_forward_axis_witness :
    Vec3.sub ⟨0, 1, 0⟩ ⟨0, 0, 0⟩ ≠ Vec3.zero ∧
    Vec3.cross (Vec3.normal (Vec3.sub ⟨0, 1, 0⟩ ⟨0, 0, 0⟩))
      (Vec3.normal (Vec3.sub ⟨1, 0, 0⟩ ⟨0, 0, 0⟩)) ≠ Vec3.zero ∧
    Mat3.rowMul kZaxisVector
        (createAimTransformation ⟨0, 0, 0⟩ ⟨0, 1, 0⟩ ⟨1, 0, 0⟩ kZaxisVector kXaxisVector).1
      = (⟨0, 1, 0⟩ : Vec3) ∧
    (createAimTransformation ⟨0, 0, 0⟩ ⟨0, 1, 0⟩ ⟨1, 0, 0⟩ kZaxisVector kXaxisVector).2
      = (⟨0, 0, 0⟩ : Vec3) := by
  have h := aim_maps_forward_axis ⟨0, 0, 0⟩ ⟨0, 1, 0⟩ ⟨1, 0, 0⟩ demo_aim_hT demo_aim_hW
  refine ⟨demo_aim_hT, demo_aim_hW, ?_, h.2⟩
  rw [h.1, demo_sub_y, demo_normal_y]

/-- C2: for every non-degenerate triple, the three basis rows of the
rotation built by `createAimTransformation` with default axes — row 2 the
forward `normalize(target - aim)`, row 1 the side
`normalize(forward × rawUp)`, row 0 the corrected up `side × forward` — are
each of unit length and pairwise orthogonal. -/
theorem aim_basis_orthonormal (a t u : Vec3)
    (hT : Vec3.sub t a ≠ Vec3.zero)
    (hW : Vec3.cross (Vec3.normal (Vec3.sub t a)) (Vec3.normal (Vec3.sub u a)) ≠ Vec3.zero) :
    ∀ M : Mat3, M = (createAimTransformation a t u kZaxisVector kXaxisVector).1 →
      (Vec3.dot M.r2 M.r2 = 1 ∧ Vec3.dot M.r1 M.r1 = 1 ∧ Vec3.dot M.r0 M.r0 = 1) ∧
      (Vec3.dot M.r2 M.r1 = 0 ∧ Vec3.dot M.r2 M.r0 = 0 ∧ Vec3.dot M.r1 M.r0 = 0) ∧
      (Vec3.vlength M.r2 = 1 ∧ Vec3.vlength M.r1 = 1 ∧ Vec3.vlength M.r0 = 1) := by
  intro M hM
  subst hM
  rw [aim_default_rot]
  have hu := vec_normal_dot_self (Vec3.sub t a) hT
  have hw := vec_normal_dot_self
    (Vec3.cross (Vec3.normal (Vec3.sub t a)) (Vec3.normal (Vec3.sub u a))) hW
  have hwu : Vec3.dot
      (Vec3.normal (Vec3.cross (Vec3.normal (Vec3.sub t a)) (Vec3.normal (Vec3.sub u a))))
      (Vec3.normal (Vec3.sub t a)) = 0 := by
    rw [show Vec3.normal (Vec3.cross (Vec3.normal (Vec3.sub t a)) (Vec3.normal (Vec3.sub u a)))
          = Vec3.smul
              (1 / Vec3.vlength
                (Vec3.cross (Vec3.normal (Vec3.sub t a)) (Vec3.normal (Vec3.sub u a))))
              (Vec3.cross (Vec3.normal (Vec3.sub t a)) (Vec3.normal (Vec3.sub u a)))
        from rfl,
      vec_dot_smul_left, vec_dot_cross_left, mul_zero]
  have hc : Vec3.dot
      (Vec3.cross
        (Vec3.normal (Vec3.cross (Vec3.normal (Vec3.sub t a)) (Vec3.normal (Vec3.sub u a))))
        (Vec3.normal (Vec3.sub t a)))
      (Vec3.cross
        (Vec3.normal (Vec3.cross (Vec3.normal (Vec3.sub t a)) (Vec3.normal (Vec3.sub u a))))
        (Vec3.normal (Vec3.sub t a))) = 1 := by
    rw [vec_cross_lagrange, hu, hw, hwu]
    norm_num
  refine ⟨⟨hu, hw, hc⟩, ⟨?_, ?_, ?_⟩, vec_vlength_eq_one _ hu, vec_vlength_eq_one _ hw,
    vec_vlength_eq_one _ hc⟩
  · rw [vec_dot_comm]
    exact hwu
  · rw [vec_dot_comm]
    exact vec_dot_cross_right _ _
  · rw [vec_dot_comm]
    exact vec_dot_cross_left _ _

/-- Witness for C2: the orthonormality conclusions at the concrete
non-degenerate triple of the simple-aim scenario. -/
theorem aim_basis_orthonormal_witness :
    Vec3.sub ⟨0, 1, 0⟩ ⟨0, 0, 0⟩ ≠ Vec3.zero ∧
    Vec3.cross (Vec3.normal (Vec3.sub ⟨0, 1, 0⟩ ⟨0, 0, 0⟩))
      (Vec3.normal (Vec3.sub ⟨1, 0, 0⟩ ⟨0, 0, 0⟩)) ≠ Vec3.zero ∧
    ∀ M : Mat3,
      M = (createAimTransformation ⟨0, 0, 0⟩ ⟨0, 1, 0⟩ ⟨1, 0, 0⟩ kZaxisVector kXaxisVector).1 →
      (Vec3.dot M.r2 M.r2 = 1 ∧ Vec3.dot M.r1 M.r1 = 1 ∧ Vec3.dot M.r0 M.r0 = 1) ∧
      (Vec3.dot M.r2 M.r1 = 0 ∧ Vec3.dot M.r2 M.r0 = 0 ∧ Vec3.dot M.r1 M.r0 = 0) ∧
      (Vec3.vlength M.r2 = 1 ∧ Vec3.vlength M.r1 = 1 ∧ Vec3.vlength M.r0 = 1) :=
  ⟨demo_aim_hT, demo_aim_hW,
   aim_basis_orthonormal ⟨0, 0, 0⟩ ⟨0, 1, 0⟩ ⟨1, 0, 0⟩ demo_aim_hT demo_aim_hW⟩

/-- C5: in `setupTwistJointChain` on `count` joints, joint `i ≤ count-2`
blends `(i+1)/count` on the live value joint against `1 - (i+1)/count` on
the static offset joint and the last joint is driven 100% by the value
joint; in `setupCounterTwistJointChain`, joint 0 gets static weight exactly
0.9 (live 0.1) and joint `i ≥ 1` blends `i/count` live — the same linear
ramp the other variant gives its joint `i-1`. -/
theorem twist_weight_ramp (count i : ℕ) (hCount : 1 ≤ count) :
    (i + 2 ≤ count →
      twistChainBlend count i
        = OrientSpec.blend (1 - ((i : ℝ) + 1) / (count : ℝ)) (((i : ℝ) + 1) / (count : ℝ))) ∧
    twistChainBlend count (count - 1) = OrientSpec.full ∧
    valueWeight (twistChainBlend count (count - 1)) = 1 ∧
    counterChainBlend count 0 = OrientSpec.blend 0.9 0.1 ∧
    (1 ≤ i → i ≤ count - 1 →
      counterChainBlend count i
          = OrientSpec.blend (1 - (i : ℝ) / (count : ℝ)) ((i : ℝ) / (count : ℝ)) ∧
      valueWeight (counterChainBlend count i)
          = valueWeight (twistChainBlend count (i - 1))) := by
  refine ⟨?_, ?_, ?_, ?_, ?_⟩
  · intro hi
    have hne : i ≠ count - 1 := by omega
    simp only [twistChainBlend, if_neg hne, OrientSpec.blend.injEq]
    constructor <;> ring
  · simp [twistChainBlend]
  · simp [twistChainBlend, valueWeight]
  · simp [counterChainBlend]
  · intro h1 hi
    obtain ⟨j, rfl⟩ : ∃ j, i = j + 1 := ⟨i - 1, by omega⟩
    have h0 : j + 1 ≠ 0 := by omega
    have hlast : j ≠ count - 1 := by omega
    refine ⟨?_, ?_⟩
    · simp only [counterChainBlend, if_neg h0, OrientSpec.blend.injEq]
      constructor <;> ring
    · simp only [counterChainBlend, twistChainBlend, if_neg h0, Nat.add_sub_cancel,
        if_neg hlast, valueWeight]
      push_cast
      ring

/-- Witness for C5: the concrete chain `count = 3`, `i = 1`. -/
theorem twist_weight_ramp_witness :
    twistChainBlend 3 1
        = OrientSpec.blend (1 - (((1 : ℕ) : ℝ) + 1) / ((3 : ℕ) : ℝ))
            ((((1 : ℕ) : ℝ) + 1) / ((3 : ℕ) : ℝ)) ∧
    twistChainBlend 3 (3 - 1) = OrientSpec.full ∧
    counterChainBlend 3 0 = OrientSpec.blend 0.9 0.1 ∧
    counterChainBlend 3 1
        = OrientSpec.blend (1 - ((1 : ℕ) : ℝ) / ((3 : ℕ) : ℝ)) (((1 : ℕ) : ℝ) / ((3 : ℕ) : ℝ)) := by
  have h := twist_weight_ramp 3 1 (by norm_num)
  exact ⟨h.1 (by norm_num), h.2.1, h.2.2.2.1,
    (h.2.2.2.2 (by norm_num) (by norm_num)).1⟩

/-- C6: `setupTwistJointChain` places twist joint `i` at
`(i+1) * (chainLength * 0.98) / count` along the twist axis — for length 9,
count 3, axis +Y the joints sit at local Y 2.94, 5.88, 8.82 — while
`setupCounterTwistJointChain` reserves `chainLength * 0.02` at the start end
and places joint `i` at `offset + i * ((chainLength - offset) / count)`
along the twist axis. -/
theorem twist_chain_spacing (chainLength : ℝ) (count : ℕ) (twistAxis : Vec3) (i : ℕ) :
    twistJointTranslation chainLength count twistAxis i
      = Vec3.smul (((i : ℝ) + 1) * (chainLength * 0.98) / (count : ℝ)) twistAxis ∧
    counterTwistJointTranslation chainLength count twistAxis i
      = Vec3.smul
          (chainLength * 0.02 + (i : ℝ) * ((chainLength - chainLength * 0.02) / (count : ℝ)))
          twistAxis ∧
    twistJointTranslation 9 3 ⟨0, 1, 0⟩ 0 = (⟨0, 2.94, 0⟩ : Vec3) ∧
    twistJointTranslation 9 3 ⟨0, 1, 0⟩ 1 = (⟨0, 5.88, 0⟩ : Vec3) ∧
    twistJointTranslation 9 3 ⟨0, 1, 0⟩ 2 = (⟨0, 8.82, 0⟩ : Vec3) := by
  refine ⟨?_, ?_, ?_, ?_, ?_⟩
  · unfold twistJointTranslation
    ext <;> dsimp only [Vec3.smul] <;> ring
  · unfold counterTwistJointTranslation
    ext <;> dsimp only [Vec3.add, Vec3.smul] <;> ring
  · unfold twistJointTranslation
    ext <;> dsimp only [Vec3.smul] <;> norm_num
  · unfold twistJointTranslation
    ext <;> dsimp only [Vec3.smul] <;> norm_num
  · unfold twistJointTranslation
    ext <;> dsimp only [Vec3.smul] <;> norm_num

/-- C9: for two otherwise-identical joint names of which exactly one
triggers the right-side detection (contains "Right" / starts with
"JORight"), the same driver rotation produces push-joint translations that
are exact negatives of each other, both in `createAvgPushJointForFinger`
(which inserts a multiply by -1 on the right path and connects the left
path directly) and in `setup_elbow_avg_push`. -/
theorem push_side_negation (nameL nameR : String)
    (hL : isRightSide nameL = false) (hR : isRightSide nameR = true)
    (weight inMin inMax outMin outMax rotation remapOutputMin : ℝ) :
    pushTranslation nameR weight inMin inMax outMin outMax rotation
      = -pushTranslation nameL weight inMin inMax outMin outMax rotation ∧
    elbowPushTranslation nameR remapOutputMin rotation
      = -elbowPushTranslation nameL remapOutputMin rotation := by
  unfold pushTranslation elbowPushTranslation
  rw [hL, hR]
  norm_num

/-- Witness for C9: the concrete name pair JORightElbow1 / JOLeftElbow1 with
the finger defaults (weight 0.5, remap [0, 90] to [0, 5]) and the elbow
remap output minimum -5, at driver rotation 30. -/
theorem push_side_negation_witness :
    isRightSide "JOLeftElbow1" = false ∧ isRightSide "JORightElbow1" = true ∧
    (pushTranslation "JORightElbow1" 0.5 0 90 0 5 30
        = -pushTranslation "JOLeftElbow1" 0.5 0 90 0 5 30 ∧
      elbowPushTranslation "JORightElbow1" (-5) 30
        = -elbowPushTranslation "JOLeftElbow1" (-5) 30) :=
  ⟨by decide, by decide,
   push_side_negation "JOLeftElbow1" "JORightElbow1" (by decide) (by decide)
     0.5 0 90 0 5 30 (-5)⟩

/-- C10: both factory classmethods pass the caller's offset arguments to the
`MuscleJointGroup` constructor in swapped positional order, so the
constructed group stores the caller's `compressionOffset` as
`self.stretchOffset` and the caller's `stretchOffset` as
`self.compressionOffset`; consequently the stretch keyframes authored by
`_addSDK` use the caller's compression offsets and vice versa. -/
theorem factory_offsets_swapped (muscleName bpOrigin : String)
    (originPos insertionPos : Vec3) (compressionFactor stretchFactor : ℝ)
    (stretchOffset compressionOffset : Option Vec3)
    (hDistinct : stretchOffset ≠ compressionOffset) :
    (createFromAttachObjs muscleName originPos insertionPos compressionFactor stretchFactor
        stretchOffset compressionOffset).stretchOffset = compressionOffset ∧
    (createFromAttachObjs muscleName originPos insertionPos compressionFactor stretchFactor
        stretchOffset compressionOffset).compressionOffset = stretchOffset ∧
    (createFromBlueprint bpOrigin originPos insertionPos compressionFactor stretchFactor
        stretchOffset compressionOffset).stretchOffset = compressionOffset ∧
    (createFromBlueprint bpOrigin originPos insertionPos compressionFactor stretchFactor
        stretchOffset compressionOffset).compressionOffset = stretchOffset ∧
    (∀ restLength : ℝ, ∀ axis : Axis, axis ≠ Axis.Y →
      (addSDK
          (createFromAttachObjs muscleName originPos insertionPos compressionFactor
            stretchFactor stretchOffset compressionOffset).compressionFactor
          (createFromAttachObjs muscleName originPos insertionPos compressionFactor
            stretchFactor stretchOffset compressionOffset).stretchFactor
          (createFromAttachObjs muscleName originPos insertionPos compressionFactor
            stretchFactor stretchOffset compressionOffset).stretchOffset
          (createFromAttachObjs muscleName originPos insertionPos compressionFactor
            stretchFactor stretchOffset compressionOffset).compressionOffset
          restLength axis).stretch.translate = offsetComp compressionOffset axis ∧
      (addSDK
          (createFromAttachObjs muscleName originPos insertionPos compressionFactor
            stretchFactor stretchOffset compressionOffset).compressionFactor
          (createFromAttachObjs muscleName originPos insertionPos compressionFactor
            stretchFactor stretchOffset compressionOffset).stretchFactor
          (createFromAttachObjs muscleName originPos insertionPos compressionFactor
            stretchFactor stretchOffset compressionOffset).stretchOffset
          (createFromAttachObjs muscleName originPos insertionPos compressionFactor
            stretchFactor stretchOffset compressionOffset).compressionOffset
          restLength axis).compression.translate = offsetComp stretchOffset axis) := by
  refine ⟨rfl, rfl, rfl, rfl, ?_⟩
  intro restLength axis haxis
  cases axis with
  | X => exact ⟨rfl, rfl⟩
  | Y => exact absurd rfl haxis
  | Z => exact ⟨rfl, rfl⟩

/-- Witness for C10: concrete distinct offsets — a stretch offset of
`(0.1, 0, 0)` and no compression offset — on the X axis. -/
theorem factory_offsets_swapped_witness :
    (some (⟨0.1, 0, 0⟩ : Vec3) ≠ (none : Option Vec3)) ∧
    (createFromAttachObjs "Demo" ⟨0, 0, 0⟩ ⟨0, 5, 0⟩ 0.5 1.5
        (some ⟨0.1, 0, 0⟩) none).stretchOffset = none ∧
    (createFromAttachObjs "Demo" ⟨0, 0, 0⟩ ⟨0, 5, 0⟩ 0.5 1.5
        (some ⟨0.1, 0, 0⟩) none).compressionOffset = some ⟨0.1, 0, 0⟩ := by
  have hDistinct : some (⟨0.1, 0, 0⟩ : Vec3) ≠ (none : Option Vec3) := fun hc =>
    Option.noConfusion hc
  have h := factory_offsets_swapped "Demo" "bpDemo_origin" ⟨0, 0, 0⟩ ⟨0, 5, 0⟩ 0.5 1.5
    (some ⟨0.1, 0, 0⟩) none hDistinct
  exact ⟨hDistinct, h.1, h.2.1⟩

/-- C4: `_addSDK` keys, for stretch factor `s` and compression factor `c`:
the two perpendicular (X/Z) scales to `sqrt(1/s)` at the stretch sample
(driver `restLength * s`) and to `sqrt(1/c)` at the compression sample
(driver `restLength * c`); the primary Y scale to `s` at stretch and `c` at
compression; and every axis to scale 1 / translate 0 at the rest sample. -/
theorem addSDK_key_values (c s restLength : ℝ) (so co : Option Vec3) :
    (∀ axis : Axis,
      (addSDK c s so co restLength axis).rest.driver = restLength ∧
      (addSDK c s so co restLength axis).rest.scale = 1 ∧
      (addSDK c s so co restLength axis).rest.translate = 0 ∧
      (addSDK c s so co restLength axis).stretch.driver = restLength * s ∧
      (addSDK c s so co restLength axis).compression.driver = restLength * c) ∧
    (∀ axis : Axis, axis ≠ Axis.Y →
      (addSDK c s so co restLength axis).stretch.scale = Real.sqrt (1 / s) ∧
      (addSDK c s so co restLength axis).compression.scale = Real.sqrt (1 / c)) ∧
    (addSDK c s so co restLength Axis.Y).stretch.scale = s ∧
    (addSDK c s so co restLength Axis.Y).compression.scale = c := by
  refine ⟨?_, ?_, rfl, rfl⟩
  · intro axis
    cases axis <;> exact ⟨rfl, rfl, rfl, rfl, rfl⟩
  · intro axis haxis
    cases axis with
    | X => exact ⟨rfl, rfl⟩
    | Y => exact absurd rfl haxis
    | Z => exact ⟨rfl, rfl⟩

/-- Witness for C4: concrete factors c = 0.5, s = 1.5 at rest length 5. -/
theorem addSDK_key_values_witness :
    (addSDK 0.5 1.5 none none 5 Axis.X).stretch.scale = Real.sqrt (1 / 1.5) ∧
    (addSDK 0.5 1.5 none none 5 Axis.X).compression.scale = Real.sqrt (1 / 0.5) ∧
    (addSDK 0.5 1.5 none none 5 Axis.Y).stretch.scale = 1.5 ∧
    (addSDK 0.5 1.5 none none 5 Axis.Y).rest.scale = 1 := by
  have h := addSDK_key_values 0.5 1.5 5 none none
  exact ⟨(h.2.1 Axis.X (by decide)).1, (h.2.1 Axis.X (by decide)).2, h.2.2.1,
    (h.1 Axis.Y).2.1⟩

/-- C3: in every reachable state of a `MuscleJointGroup` — after
construction, after `edit()`, after `update()`, after locator moves or
`mirror`, and after any sequence of these — exactly one of the two
representations is present: either the edit-mode bindings and locators, or
the finalized pair of `mainAimConstraint` plus the driver's
`mainPointConstraint`; never both and never neither. -/
theorem muscle_exactly_one_representation (s : MuscleState) (h : Reachable s) :
    ((s.hasLocators = true ∧ s.hasEditConstraints = true) ∨
      (s.hasMainAim = true ∧ s.hasMainPoint = true)) ∧
    ¬((s.hasLocators = true ∧ s.hasEditConstraints = true) ∧
      (s.hasMainAim = true ∧ s.hasMainPoint = true)) := by
  induction h with
  | construct p s h =>
      simp only [constructOp, editOp, createState, deleteNode, if_true, Except.ok.injEq] at h
      subst h
      simp
  | edit s s' hr h ih =>
      cases hmp : s.hasMainPoint with
      | false => simp [editOp, deleteNode, hmp] at h
      | true =>
          simp only [editOp, deleteNode, hmp, if_true, Except.ok.injEq] at h
          subst h
          simp
  | update s s' hr h ih =>
      cases hma : s.hasMainAim with
      | false => simp [updateOp, deleteNode, hma] at h
      | true =>
          simp only [updateOp, deleteNode, hma, if_true, Except.ok.injEq] at h
          subst h
          simp [updateResult]
  | move s o i c hr hloc ih =>
      simpa using ih
  | mirror s m n hr h ih =>
      simp only [mirrorOp, constructOp, editOp, createState, deleteNode, if_true,
        Except.ok.injEq] at h
      subst h
      simp

/-- Witness for C3: the freshly constructed demo group. -/
theorem muscle_exactly_one_representation_witness :
    ((demoEditState.hasLocators = true ∧ demoEditState.hasEditConstraints = true) ∨
      (demoEditState.hasMainAim = true ∧ demoEditState.hasMainPoint = true)) ∧
    ¬((demoEditState.hasLocators = true ∧ demoEditState.hasEditConstraints = true) ∧
      (demoEditState.hasMainAim = true ∧ demoEditState.hasMainPoint = true)) :=
  muscle_exactly_one_representation demoEditState
    (Reachable.construct demoParams demoEditState rfl)

/-- C7: on any group in Edit state (locators and edit bindings present, the
main aim constraint still alive, as `edit()` leaves it), `update()`
succeeds, and calling `update()` again immediately — with no intervening
locator movement — succeeds as well and produces the identical state:
the second pass deletes nothing that is missing (all its deletions are
existence-guarded or target the constraint the first pass rebuilt) and
re-derives the same aim solve and driven keys from unchanged geometry. -/
theorem muscle_update_idempotent (s : MuscleState)
    (hLoc : s.hasLocators = true) (hEdit : s.hasEditConstraints = true)
    (hAim : s.hasMainAim = true) :
    updateOp s = Except.ok (updateResult s) ∧
    updateOp (updateResult s) = Except.ok (updateResult s) := by
  constructor
  · simp [updateOp, deleteNode, hAim]
  · have h1 : (updateResult s).hasMainAim = true := rfl
    simp only [updateOp, deleteNode, h1, if_true, Except.ok.injEq]
    rfl

/-- Witness for C7: the freshly constructed demo group, updated twice. -/
theorem muscle_update_idempotent_witness :
    updateOp demoEditState = Except.ok (updateResult demoEditState) ∧
    updateOp (updateResult demoEditState) = Except.ok (updateResult demoEditState) :=
  muscle_update_idempotent demoEditState rfl rfl rfl

/-- C8: `mirror` always succeeds and builds a new group whose rest length
and compression/stretch parameters (factors and both offsets, passed in the
constructor's declared order) equal the source's, whose origin/insertion/
center positions are the x-negated, y/z-preserved source positions, and
which is in Edit state regardless of the source's state.  The rest-length
hypothesis ties the stored `muscleLength` to the live origin–insertion
distance `mirror` actually measures. -/
theorem muscle_mirror_correct (newMuscleName : String) (s : MuscleState)
    (hRest : Vec3.vlength (Vec3.sub s.insertionPos s.originPos) = s.params.muscleLength) :
    ∃ m : MuscleState, mirrorOp newMuscleName s = Except.ok m ∧
      m.params.muscleLength = s.params.muscleLength ∧
      m.params.compressionFactor = s.params.compressionFactor ∧
      m.params.stretchFactor = s.params.stretchFactor ∧
      m.params.stretchOffset = s.params.stretchOffset ∧
      m.params.compressionOffset = s.params.compressionOffset ∧
      m.originPos = Vec3.mk (-s.originPos.x) s.originPos.y s.originPos.z ∧
      m.insertionPos = Vec3.mk (-s.insertionPos.x) s.insertionPos.y s.insertionPos.z ∧
      m.driverPos = Vec3.mk (-s.driverPos.x) s.driverPos.y s.driverPos.z ∧
      m.hasLocators = true ∧ m.hasEditConstraints = true ∧
      m.hasMainAim = true ∧ m.hasMainPoint = false := by
  refine ⟨_, rfl, hRest, rfl, rfl, rfl, rfl, rfl, rfl, rfl, rfl, rfl, rfl, rfl⟩

/-- Witness for C8: mirroring the demo source whose origin–insertion
distance is exactly its stored rest length 5. -/
theorem muscle_mirror_correct_witness :
    Vec3.vlength (Vec3.sub demoMirrorSrc.insertionPos demoMirrorSrc.originPos)
        = demoMirrorSrc.params.muscleLength ∧
    ∃ m : MuscleState, mirrorOp "RightDemo" demoMirrorSrc = Except.ok m ∧
      m.params.muscleLength = demoMirrorSrc.params.muscleLength ∧
      m.params.compressionFactor = demoMirrorSrc.params.compressionFactor ∧
      m.params.stretchFactor = demoMirrorSrc.params.stretchFactor ∧
      m.params.stretchOffset = demoMirrorSrc.params.stretchOffset ∧
      m.params.compressionOffset = demoMirrorSrc.params.compressionOffset ∧
      m.originPos
        = Vec3.mk (-demoMirrorSrc.originPos.x) demoMirrorSrc.originPos.y
            demoMirrorSrc.originPos.z ∧
      m.insertionPos
        = Vec3.mk (-demoMirrorSrc.insertionPos.x) demoMirrorSrc.insertionPos.y
            demoMirrorSrc.insertionPos.z ∧
      m.driverPos
        = Vec3.mk (-demoMirrorSrc.driverPos.x) demoMirrorSrc.driverPos.y
            demoMirrorSrc.driverPos.z ∧
      m.hasLocators = true ∧ m.hasEditConstraints = true ∧
      m.hasMainAim = true ∧ m.hasMainPoint = false := by
  have hRest : Vec3.vlength (Vec3.sub demoMirrorSrc.insertionPos demoMirrorSrc.originPos)
      = demoMirrorSrc.params.muscleLength := by
    show Vec3.vlength (Vec3.sub ⟨1, 3, 4⟩ ⟨1, 0, 0⟩) = 5
    unfold Vec3.vlength Vec3.dot Vec3.sub
    rw [show ((1 : ℝ) - 1) * ((1 : ℝ) - 1) + ((3 : ℝ) - 0) * ((3 : ℝ) - 0)
          + ((4 : ℝ) - 0) * ((4 : ℝ) - 0) = (5 : ℝ) ^ 2 by norm_num]
    exact Real.sqrt_sq (by norm_num)
  exact ⟨hRest, muscle_mirror_correct "RightDemo" demoMirrorSrc hRest⟩
